import Mathlib

set_option maxRecDepth 2048

/-!
Verification of the novel-writing agent repository (`novel_writing_agent.py`,
`gemini_adapter.py`, `gemini_adapter_fixed.py`, `simple_migrate.py`).

The Python source is shallowly embedded: dataclasses become structures, Python
`int` becomes `Int`, Python strings become `String` (or `List Char` for the
character-level scanning done by the regex-based parsers), dicts preserving
insertion order become association lists, and `list.sort` (a stable sort) is
modelled by `List.insertionSort`, which is likewise stable; for the total
preorders used by the source the result of any stable sort is unique, so this
is a faithful model of CPython's Timsort.  Fallible operations (a workflow
step that may raise) return `Except`.  Wall-clock timestamps
(`datetime.now().isoformat()`) are not modelled: the `created_time` field is
threaded through as an uninterpreted string defaulting to `""`.
-/

/-! ## Data model (dataclasses of `novel_writing_agent.py`) -/

/-- Dataclass `ChapterSummary` (novel_writing_agent.py lines 49-59). -/
structure ChapterSummary where
  chapter_num : Int
  title : String
  content_summary : String
  characters_involved : List String := []
  plot_threads : List String := []
  key_events : List String := []
  word_count : Int := 0
  created_time : String := ""
deriving DecidableEq

/-- Dataclass `CharacterInfo` (novel_writing_agent.py lines 32-37); the
free-form `current_state` dict is modelled as a string-valued association
list. -/
structure CharacterInfo where
  name : String
  description : String := ""
  current_state : List (String × String) := []
deriving DecidableEq

/-- Dataclass `PlotThread` (novel_writing_agent.py lines 39-47). -/
structure PlotThread where
  id : String
  description : String
  status : String := "active"
  priority : String := "medium"
  first_chapter : Int := 0
  last_chapter : Int := 0
deriving DecidableEq

/-! ## Stable sorting, as used by the source

`self.chapter_summaries.sort(key=lambda x: x.chapter_num)` is an ascending
stable sort on the `chapter_num` key, and
`sorted(unresolved, key=lambda x: x.priority == "high", reverse=True)` is a
descending stable sort on a boolean key.  Both are modelled with
`List.insertionSort` on the corresponding total preorder. -/

/-- The ascending `chapter_num` preorder used by `list.sort(key=...)`. -/
def sumLe (a b : ChapterSummary) : Prop := a.chapter_num ≤ b.chapter_num

/-- Strict version of `sumLe`; `List.Pairwise sumLt` states the record-store
invariant "sorted by chapter number with no duplicate numbers". -/
def sumLt (a b : ChapterSummary) : Prop := a.chapter_num < b.chapter_num

instance : DecidableRel sumLe := fun a b => Int.decLe a.chapter_num b.chapter_num

instance : DecidableRel sumLt := fun a b => Int.decLt a.chapter_num b.chapter_num

instance : IsTotal ChapterSummary sumLe := ⟨fun a b => Int.le_total a.chapter_num b.chapter_num⟩

instance : IsTrans ChapterSummary sumLe := ⟨fun _ _ _ => Int.le_trans⟩

instance : IsTrans ChapterSummary sumLt := ⟨fun _ _ _ => Int.lt_trans⟩

instance : IsAntisymm ChapterSummary sumLt :=
  ⟨fun _ _ h h' => absurd (Int.lt_trans h h') (Int.lt_irrefl _)⟩

/-- The descending reverse-sorted preorder on the boolean key
`thread.priority == "high"` (true sorts first), used by
`find_unresolved_threads`. -/
def prioGe (a b : PlotThread) : Prop :=
  (if b.priority == "high" then (1 : Nat) else 0) ≤ (if a.priority == "high" then (1 : Nat) else 0)

instance : DecidableRel prioGe := fun _ _ => Nat.decLe _ _

instance : IsTotal PlotThread prioGe := ⟨fun _ _ => Nat.le_total _ _⟩

instance : IsTrans PlotThread prioGe := ⟨fun _ _ _ h h' => Nat.le_trans h' h⟩

/-! ## Record-store operations (`NovelWritingAgent`) -/

/-- `NovelWritingAgent.add_chapter_summary` (novel_writing_agent.py lines
437-443): drop every stored summary with the same `chapter_num`, append the
new one, and re-sort ascending by `chapter_num` (stable). -/
def add_chapter_summary (l : List ChapterSummary) (s : ChapterSummary) : List ChapterSummary :=
  List.insertionSort sumLe ((l.filter fun t => t.chapter_num != s.chapter_num) ++ [s])

/-- `NovelWritingAgent.get_latest_chapter_number` (lines 383-387):
`max(summary.chapter_num for ...)` over a non-empty store, else `0`. -/
def get_latest_chapter_number (l : List ChapterSummary) : Int :=
  match l with
  | [] => 0
  | s :: rest => rest.foldl (fun m t => max m t.chapter_num) s.chapter_num

/-- `NovelWritingAgent.get_recent_chapters` (lines 389-394): sort descending
by `chapter_num` (stable) and take the first `count`. -/
def get_recent_chapters (l : List ChapterSummary) (count : Nat) : List ChapterSummary :=
  match l with
  | [] => []
  | _ => (List.insertionSort (fun a b => sumLe b a) l).take count

instance : DecidableRel (fun a b => sumLe b a) := fun a b => Int.decLe b.chapter_num a.chapter_num

/-- `NovelWritingAgent.get_active_plot_threads` (lines 400-402); the
`plot_threads` dict is passed as its insertion-ordered value list. -/
def get_active_plot_threads (threads : List PlotThread) : List PlotThread :=
  threads.filter fun t => t.status == "active"

/-- `NovelWritingAgent.find_unresolved_threads` (lines 404-413): keep the
active threads trailing the latest chapter by more than 3, then
`sorted(key=lambda x: x.priority == "high", reverse=True)` (stable). -/
def find_unresolved_threads (threads : List PlotThread) (summaries : List ChapterSummary) :
    List PlotThread :=
  let latest := get_latest_chapter_number summaries
  List.insertionSort prioGe
    (threads.filter fun t => t.status == "active" && decide (latest - t.last_chapter > 3))

/-- A twice-stored and a once-stored demo store used by concrete witnesses. -/
def demoStore : List ChapterSummary :=
  [{ chapter_num := 1, title := "启程", content_summary := "主角离家" },
   { chapter_num := 3, title := "旧版", content_summary := "旧的第三章" }]

/-- A replacement summary for chapter 3, used by concrete witnesses. -/
def demoSummary : ChapterSummary :=
  { chapter_num := 3, title := "新版", content_summary := "改写后的第三章" }

/-- A stale active medium-priority thread last touched in chapter 5. -/
def demoThread5 : PlotThread :=
  { id := "thread_1", description := "神秘系统的来历之谜尚未揭开",
    status := "active", priority := "medium", first_chapter := 1, last_chapter := 5 }

/-- An active thread last touched in chapter 8 (inside the staleness window). -/
def demoThread8 : PlotThread :=
  { id := "thread_2", description := "宗门大比的结果引发的恩怨",
    status := "active", priority := "medium", first_chapter := 8, last_chapter := 8 }

/-- A store whose latest chapter number is 10. -/
def demoSummaries10 : List ChapterSummary :=
  [{ chapter_num := 10, title := "决战", content_summary := "大战爆发" }]

/-! ## Claim C3: the Thread Synthesizer (`extract_plot_threads`)

`GeminiProjectAdapter.extract_plot_threads` (gemini_adapter.py lines 164-184,
identical in gemini_adapter_fixed.py lines 189-209): walk the summaries in
sequence order, and for each key event longer than 10 characters emit one
thread with the next sequential id. -/

/-- The thread record built for the `n`-th qualifying event (1-based) of
chapter `c` with event text `e`. -/
def threadOf (n : Nat) (c : Int) (e : String) : PlotThread :=
  { id := "thread_" ++ toString n, description := e, status := "active",
    priority := "medium", first_chapter := c, last_chapter := c }

/-- Inner loop of `extract_plot_threads` over one summary's `key_events`,
threading the running thread id. -/
def extract_events_loop (c : Int) : List String → Nat → List PlotThread × Nat
  | [], n => ([], n)
  | e :: es, n =>
    if e.length > 10 then
      let rest := extract_events_loop c es (n + 1)
      (threadOf n c e :: rest.1, rest.2)
    else
      extract_events_loop c es n

/-- Outer loop of `extract_plot_threads` over the summaries. -/
def extract_threads_loop : List ChapterSummary → Nat → List PlotThread
  | [], _ => []
  | s :: rest, n =>
    let inner := extract_events_loop s.chapter_num s.key_events n
    inner.1 ++ extract_threads_loop rest inner.2

/-- `GeminiProjectAdapter.extract_plot_threads`: thread ids start at 1. -/
def extract_plot_threads (summaries : List ChapterSummary) : List PlotThread :=
  extract_threads_loop summaries 1

/-- Specification-side description: the qualifying `(chapter, event)` pairs,
in summary order then event order, keeping exactly the events whose length
exceeds 10 characters. -/
def qualifying_events (summaries : List ChapterSummary) : List (Int × String) :=
  summaries.flatMap fun s =>
    (s.key_events.filter fun e => e.length > 10).map fun e => (s.chapter_num, e)

/-- Specification-side description: number the pairs sequentially from `n`. -/
def numbered_threads (n : Nat) : List (Int × String) → List PlotThread
  | [] => []
  | p :: ps => threadOf n p.1 p.2 :: numbered_threads (n + 1) ps

/-! ## Character-level scanning helpers

The import-path parsers work by regular-expression scanning.  Each concrete
pattern of the source is embedded as an explicit character-list matcher with
the exact (deterministic) backtracking behaviour of the Python `re` engine on
that pattern.  Python `\s` is modelled by the six ASCII whitespace
characters and `\d` by the ASCII decimal digits (the logs the repository
processes contain no other whitespace/digit code points). -/

/-- Python `\s` (ASCII part): space, tab, newline, carriage return, vertical
tab, form feed. -/
def pyIsSpace (c : Char) : Bool :=
  c = ' ' || c = '\t' || c = '\n' || c = '\x0d' || c = '\x0b' || c = '\x0c'

/-- Python `str.strip()`: remove leading and trailing whitespace. -/
def pyStrip (l : List Char) : List Char :=
  ((l.dropWhile pyIsSpace).reverse.dropWhile pyIsSpace).reverse

/-- Match a literal pattern at the front, returning the remainder. -/
def expectStr (pat l : List Char) : Option (List Char) :=
  if pat.isPrefixOf l then some (l.drop pat.length) else none

/-- Value of a decimal digit string, as `int()` computes it. -/
def digitsToNat (ds : List Char) : Nat :=
  ds.foldl (fun a c => a * 10 + (c.toNat - 48)) 0

/-- Deterministic behaviour of the regex fragment `[sep]*([^*]+)` where every
`sep` character is itself not `*`: the greedy separator run takes the longest
separator prefix of the non-star run `p`, and the group takes the rest of
`p`; when that would leave the group empty the engine backtracks one
character, so the group captures the last character of `p`.  Returns the
captured group and the remainder of the input (starting at the first `*` or
the end).  Fails exactly when `p` is empty. -/
def sepGroupNonstar (isSep : Char → Bool) (l : List Char) :
    Option (List Char × List Char) :=
  let p := l.takeWhile (fun c => c != '*')
  if p.isEmpty then none
  else
    let a := p.takeWhile isSep
    let g := if a.length = p.length then p.drop (p.length - 1) else p.drop a.length
    some (g, l.drop p.length)

/-! ## Log Segmenter, working variant (`simple_migrate.py` lines 19-52)

The chapter-heading pattern is `### \*\*第(\d+)章[：:\s]*([^*]+)\*\*`,
applied with `re.match` to each line of the log section. -/

/-- The separator class `[：:\s]` of the chapter-heading pattern. -/
def chapterSep (c : Char) : Bool := c = '：' || c = ':' || pyIsSpace c

/-- `re.match(r'### \*\*第(\d+)章[：:\s]*([^*]+)\*\*', line)`: literal
`### **第`, a non-empty digit group, literal `章`, separators, the non-star
title group, then the literal `**` (trailing characters are allowed). -/
def matchChapterLine (line : List Char) : Option (Int × List Char) :=
  match expectStr "### **第".data line with
  | none => none
  | some l =>
    let ds := l.takeWhile Char.isDigit
    if ds.isEmpty then none
    else
      match expectStr "章".data (l.drop ds.length) with
      | none => none
      | some l2 =>
        match sepGroupNonstar chapterSep l2 with
        | none => none
        | some (g, rest) =>
          if "**".data.isPrefixOf rest then some ((digitsToNat ds : Int), g) else none

/-- Python `content.split('\n')` on character lists. -/
def splitOnNl : List Char → List (List Char)
  | [] => [[]]
  | c :: t =>
    if c = '\n' then [] :: splitOnNl t
    else
      match splitOnNl t with
      | [] => [[c]]
      | w :: ws => (c :: w) :: ws

/-- The line-scanning loop of `test_and_migrate` (simple_migrate.py lines
31-50): start a new chapter at each heading line (title stripped), collect
the following lines as the chapter body, flush the previous chapter when a
new heading or the end of input is reached; lines before the first heading
are discarded.  The body is re-joined with `'\n'.join(...)`. -/
def seg_loop :
    List (List Char) → Option ((Int × List Char) × List (List Char)) →
      List (Int × List Char × List Char)
  | [], none => []
  | [], some ((n, t), acc) => [(n, t, List.intercalate ['\n'] acc)]
  | line :: rest, st =>
    match matchChapterLine line with
    | some (n, g) =>
      match st with
      | none => seg_loop rest (some ((n, pyStrip g), []))
      | some ((n0, t0), acc) =>
        (n0, t0, List.intercalate ['\n'] acc) :: seg_loop rest (some ((n, pyStrip g), []))
    | none =>
      match st with
      | none => seg_loop rest none
      | some (c, acc) => seg_loop rest (some (c, acc ++ [line]))

/-- First suffix of the input starting with `pat` (Python `str.find` plus
slicing from the found index); `none` when `find` returns `-1`. -/
def dropUntilSub (pat : List Char) : List Char → Option (List Char)
  | [] => if pat.isEmpty then some [] else none
  | c :: t => if pat.isPrefixOf (c :: t) then some (c :: t) else dropUntilSub pat t

/-- Log-section location of `simple_migrate.py` lines 20-24: try the bold
heading, then the plain heading.  When both `find` calls return `-1` the
unguarded Python code computes `content[-1:]` (the last character). -/
def simple_migrate_log_content (content : List Char) : List Char :=
  match dropUntilSub "## **剧情日志**".data content with
  | some l => l
  | none =>
    match dropUntilSub "## 剧情日志".data content with
    | some l => l
    | none => content.drop (content.length - 1)

/-- The complete line-scanning segmentation of `simple_migrate.py`:
`(chapter number, stripped title, joined body lines)` per heading, in
document order. -/
def simple_migrate_chapters (content : String) : List (Int × List Char × List Char) :=
  seg_loop (splitOnNl (simple_migrate_log_content content.data)) none

/-! ## Log Segmenter, "fixed" variant (`gemini_adapter_fixed.py` lines
87-122)

Its heading pattern is written `r'### \\*\\*第(\\d+)章[：:\\s]*([^*]+)\\*\\*'`:
inside a raw string every `\\` is a literal backslash, so the regex reads
`### ` + (zero or more backslashes) + `第` + (one literal backslash followed
by one or more literal `d`) + `章` + (separators drawn from `：`, `:`, a
literal backslash, and the letter `s`) + the non-star group + (zero or more
backslashes).  A match therefore requires the literal text `第\dd...章` with
a real backslash, which no ordinary log contains. -/

/-- The separator class `[：:\\s]` of the double-escaped pattern: full-width
colon, colon, a literal backslash, and the letter `s`. -/
def brokenSep (c : Char) : Bool := c = '：' || c = ':' || c = '\\' || c = 's'

/-- One attempted match of the double-escaped heading pattern: literal
`### `, a run of backslashes, `第`, a backslash, a non-empty run of `d`s,
`章`, broken separators, the non-star group, a run of backslashes.  Returns
the two captured groups and the remainder after the match. -/
def brokenMatchAt (l : List Char) : Option ((List Char × List Char) × List Char) :=
  match expectStr "### ".data l with
  | none => none
  | some l1 =>
    match expectStr "第".data (l1.dropWhile (fun c => c = '\\')) with
    | none => none
    | some l3 =>
      match l3 with
      | '\\' :: l4 =>
        let ds := l4.takeWhile (fun c => c = 'd')
        if ds.isEmpty then none
        else
          match expectStr "章".data (l4.drop ds.length) with
          | none => none
          | some l5 =>
            match sepGroupNonstar brokenSep l5 with
            | none => none
            | some (g, rest) =>
              some ((('\\' :: ds), g), rest.dropWhile (fun c => c = '\\'))
      | _ => none

/-- `re.findall` scanning for the double-escaped pattern: non-overlapping
matches, advancing one character on failure (fuelled by the input length). -/
def brokenFindAux : Nat → List Char → List (List Char × List Char)
  | 0, _ => []
  | _, [] => []
  | fuel + 1, l =>
    match brokenMatchAt l with
    | some (gs, rest) => gs :: brokenFindAux fuel rest
    | none => brokenFindAux fuel (l.drop 1)

/-- All matches of the double-escaped chapter-heading pattern. -/
def broken_find_chapters (l : List Char) : List (List Char × List Char) :=
  brokenFindAux (l.length + 1) l

/-- Log-section location of `parse_gemini_plot_log` (both adapter variants,
gemini_adapter_fixed.py lines 96-103): bold heading first, then the plain
one; `none` means the log section is missing and the parse returns no
chapters. -/
def fixed_log_content (content : List Char) : Option (List Char) :=
  match dropUntilSub "## **剧情日志**".data content with
  | some l => some l
  | none => dropUntilSub "## 剧情日志".data content

/-- The chapter headings found by `gemini_adapter_fixed.py`'s
`parse_gemini_plot_log` (its `chapters` list, line 111); the per-chapter
loop emits at most one summary per element of this list. -/
def fixed_find_chapter_headings (content : String) : List (List Char × List Char) :=
  match fixed_log_content content.data with
  | none => []
  | some log => broken_find_chapters log

/-- A well-formed narrative-log document with exactly one chapter heading. -/
def demoLogDoc : String :=
  "# 项目说明\n\n## 剧情日志\n\n### **第1章：起点**\n\n* **剧情进展:** 主角获得神秘系统\n"

/-! ## Chapter Extractor (`gemini_adapter.py` lines 122-162)

`parse_single_chapter_summary` extracts three labelled fields from a chapter
block with `re.search`/`re.findall`; a missing label yields an empty field.
The `try/except` wrapper returns `None` on an unexpected exception; in the
pure embedding the body is total, and the caller's skip-and-continue loop is
modelled generically over any fallible per-chapter parser. -/

/-- `re.search` semantics: try the position matcher at every position, left
to right, returning the first success. -/
def searchFirst {α : Type} (f : List Char → Option α) : List Char → Option α
  | [] => f []
  | c :: t =>
    match f (c :: t) with
    | some r => some r
    | none => searchFirst f t

/-- One attempted match of `\*\s*\*\*<label>[：:]?\*\*\s*([^*]+)` (the
pattern of the `剧情进展` and `关键线索` fields): a bullet star, whitespace,
the bold label with optional colon, the closing bold marker, whitespace,
then the non-star group. -/
def matchLabeledAt (label : List Char) (l : List Char) : Option (List Char) :=
  match expectStr ['*'] l with
  | none => none
  | some l1 =>
    match expectStr ('*' :: '*' :: label) (l1.dropWhile pyIsSpace) with
    | none => none
    | some l2 =>
      let l3 := match l2 with
        | c :: t => if c = '：' || c = ':' then t else l2
        | [] => l2
      match expectStr "**".data l3 with
      | none => none
      | some l4 =>
        match sepGroupNonstar pyIsSpace l4 with
        | some (g, _) => some g
        | none => none

/-- The lookahead `(?=\*\s*\*\*)` of the character-status section pattern:
a star, whitespace, then two stars. -/
def lookCharBullet (s : List Char) : Bool :=
  match s with
  | '*' :: t => "**".data.isPrefixOf (t.dropWhile pyIsSpace)
  | _ => false

/-- The lazy group `(.*?)(?=\*\s*\*\*|$)` under `re.DOTALL` (no
`re.MULTILINE`): stop at the first position where the bullet lookahead
matches, at the end of input, or just before a final newline (`$`). -/
def lazyUntilStop : List Char → List Char
  | [] => []
  | c :: t =>
    if lookCharBullet (c :: t) then []
    else if c = '\n' && t.isEmpty then []
    else c :: lazyUntilStop t

/-- One attempted match of
`\*\s*\*\*角色状态[：:]?\*\*\s*(.*?)(?=\*\s*\*\*|$)`, returning the
character-status section body. -/
def matchCharSectionAt (l : List Char) : Option (List Char) :=
  match expectStr ['*'] l with
  | none => none
  | some l1 =>
    match expectStr ("**角色状态".data) (l1.dropWhile pyIsSpace) with
    | none => none
    | some l2 =>
      let l3 := match l2 with
        | c :: t => if c = '：' || c = ':' then t else l2
        | [] => l2
      match expectStr "**".data l3 with
      | none => none
      | some l4 => some (lazyUntilStop (l4.dropWhile pyIsSpace))

/-- Characters excluded from the name group `[^(（]+`. -/
def notOpenParen (c : Char) : Bool := !(c = '(' || c = '（')

/-- Characters allowed in the parenthetical group `[^)）]*`. -/
def notCloseParen (c : Char) : Bool := !(c = ')' || c = '）')

/-- Characters allowed in the status group `[^*\n]+`. -/
def notStarNl (c : Char) : Bool := !(c = '*' || c = '\n')

/-- The tail `\s*[：:]\*\*([^*\n]+)` of the character-entry pattern,
returning the status group and the remainder. -/
def charEntryTail (a : List Char) : Option (List Char × List Char) :=
  match a.dropWhile pyIsSpace with
  | c :: t =>
    if c = '：' || c = ':' then
      match expectStr "**".data t with
      | none => none
      | some t2 =>
        let g3 := t2.takeWhile notStarNl
        if g3.isEmpty then none else some (g3, t2.drop g3.length)
    else none
  | [] => none

/-- The optional parenthetical `(?:\s*[（(]([^)）]*)[）)])?` followed by the
tail, in its preferred (present) form. -/
def charEntryParen (a : List Char) : Option (List Char × List Char × List Char) :=
  match a.dropWhile pyIsSpace with
  | c :: t =>
    if c = '（' || c = '(' then
      let g2 := t.takeWhile notCloseParen
      match t.drop g2.length with
      | c2 :: t2 =>
        if c2 = '）' || c2 = ')' then
          match charEntryTail t2 with
          | some (g3, rest) => some (g2, g3, rest)
          | none => none
        else none
      | [] => none
    else none
  | [] => none

/-- Attempt the remainder of the character-entry pattern with the name group
bound to the first `k` characters: the parenthetical branch is preferred,
then the direct tail. -/
def charEntryFrom (rest : List Char) (k : Nat) :
    Option (List Char × List Char × List Char × List Char) :=
  match charEntryParen (rest.drop k) with
  | some (g2, g3, r) => some (rest.take k, g2, g3, r)
  | none =>
    match charEntryTail (rest.drop k) with
    | some (g3, r) => some (rest.take k, [], g3, r)
    | none => none

/-- Greedy backtracking over the name-group length, longest first (the
regex engine's preference for `([^(（]+)`). -/
def tryNameLen : Nat → List Char → Option (List Char × List Char × List Char × List Char)
  | 0, _ => none
  | k + 1, rest =>
    match charEntryFrom rest (k + 1) with
    | some r => some r
    | none => tryNameLen k rest

/-- One attempted match of the character-entry pattern
`\*\*([^(（]+)(?:\s*[（(]([^)）]*)[）)])?\s*[：:]\*\*([^*\n]+)` at a
position, returning the three groups and the remainder after the match. -/
def matchCharEntryAt (l : List Char) :
    Option ((List Char × List Char × List Char) × List Char) :=
  match expectStr "**".data l with
  | none => none
  | some rest =>
    match tryNameLen (rest.takeWhile notOpenParen).length rest with
    | some (g1, g2, g3, r) => some ((g1, g2, g3), r)
    | none => none

/-- `re.findall` for the character-entry pattern: non-overlapping matches,
scanning left to right (fuelled by the input length). -/
def charFindAux : Nat → List Char → List (List Char × List Char × List Char)
  | 0, _ => []
  | _, [] => []
  | fuel + 1, l =>
    match matchCharEntryAt l with
    | some (gs, rest) => gs :: charFindAux fuel rest
    | none => charFindAux fuel (l.drop 1)

/-- All character-entry matches within a character-status section body. -/
def char_findall (l : List Char) : List (List Char × List Char × List Char) :=
  charFindAux (l.length + 1) l

/-- `GeminiProjectAdapter.parse_single_chapter_summary`
(gemini_adapter.py lines 122-162): extract the plot-progress text (stripped,
defaulting to empty), the character names of the character-status section
(stripped, empty names dropped), and the key-clues text as a one-element
list; absent labels degrade to empty fields and never fail.  The
`except`-branch (`return None`) is unreachable in the pure embedding. -/
def parse_single_chapter_summary (chapter_num : Int) (title : String) (content : String) :
    Option ChapterSummary :=
  let chars := content.data
  let plot_progress :=
    match searchFirst (matchLabeledAt "剧情进展".data) chars with
    | some g => String.mk (pyStrip g)
    | none => ""
  let characters :=
    match searchFirst matchCharSectionAt chars with
    | none => []
    | some sec =>
      ((char_findall sec).map fun gs => String.mk (pyStrip gs.1)).filter fun n => n != ""
  let key_events :=
    match searchFirst (matchLabeledAt "关键线索".data) chars with
    | some g => [String.mk (pyStrip g)]
    | none => []
  some { chapter_num := chapter_num, title := title, content_summary := plot_progress,
         characters_involved := characters, plot_threads := [],
         key_events := key_events, word_count := 0, created_time := "" }

/-- The per-chapter loop of `parse_gemini_plot_log` (gemini_adapter.py lines
114-118): keep each successfully parsed summary, drop each chapter whose
parse failed, and continue with the remaining chapters. -/
def collect_summaries {α : Type} (parse : α → Option ChapterSummary) :
    List α → List ChapterSummary
  | [] => []
  | c :: rest =>
    match parse c with
    | some s => s :: collect_summaries parse rest
    | none => collect_summaries parse rest

/-- A chapter block with a plot-progress field and a key-clues field but no
character-status field. -/
def demoChapterBlock : String :=
  "* **剧情进展:** 主角获得神秘系统，开始修炼之路\n* **关键线索:** 神秘系统的来历之谜尚未揭开\n"

/-- A demo per-chapter parser failing exactly on chapter number 0. -/
def demoFlakyParse (n : Int) : Option ChapterSummary :=
  if n = 0 then none
  else some { chapter_num := n, title := "", content_summary := "ok" }

/-! ## Workflow engine (`novel_writing_agent.py` lines 61-331, 445-493)

The mutable context dict threaded through the four stages becomes a
structure of optional slots; the agent's persistent state (record store,
external documents, chapter files written so far) is carried inside it.  A
stage that would raise (`KeyError` on a missing context key) returns
`Except.error`; the engine stops at the first failing stage and reports the
stage name, the error, and the context as of the failure (side effects of
earlier stages persist, as in Python). -/

/-- The persistent state owned by a `NovelWritingAgent`: the three record
collections, the outline document, the narrative-log document
(`agent.md`/`GEMINI.md`; `none` = the file does not exist), and the chapter
files written so far (path, content). -/
structure AgentState where
  characters : List (String × CharacterInfo)
  plot_threads : List (String × PlotThread)
  chapter_summaries : List ChapterSummary
  outline : String
  agent_md : Option String
  files_written : List (String × String)
deriving DecidableEq

/-- Output of the Review stage (the `review_result` dict, lines 99-106). -/
structure ReviewResult where
  outline : String
  recent_chapters : List ChapterSummary
  characters : List (String × CharacterInfo)
  active_threads : List PlotThread
  unresolved_threads : List PlotThread
  next_chapter_num : Int
deriving DecidableEq

/-- Output of the PreCheck stage (the `check_result` dict, lines 130-136);
the three sub-checks always report a passing/empty result. -/
structure CheckResult where
  character_check_status : String
  planned_threads : List String
  consistency_status : String
  warnings : List String
  suggestions : List String
deriving DecidableEq

/-- The constant report the placeholder checks produce (lines 141-154). -/
def default_check_result : CheckResult :=
  { character_check_status := "passed", planned_threads := [],
    consistency_status := "passed", warnings := [], suggestions := [] }

/-- The workflow context dict: `agent` and `next_chapter_num` are always
present (set by `create_next_chapter`); the other keys appear as stages
write them. -/
structure Context where
  agent : AgentState
  next_chapter_num : Int
  review_result : Option ReviewResult := none
  check_result : Option CheckResult := none
  chapter_content : Option String := none
  chapter_title : Option String := none
  saved_path : Option String := none
  chapter_summary : Option ChapterSummary := none
deriving DecidableEq

/-- A workflow step: a name and a fallible `execute(context) -> context`. -/
structure WorkflowStep where
  name : String
  execute : Context → Except String Context

/-- The `review_result` dict built by `ReviewStep.execute` (lines 79-109). -/
def review_result_of (ctx : Context) : ReviewResult :=
  { outline := ctx.agent.outline,
    recent_chapters := get_recent_chapters ctx.agent.chapter_summaries 3,
    characters := ctx.agent.characters,
    active_threads := get_active_plot_threads (ctx.agent.plot_threads.map Prod.snd),
    unresolved_threads :=
      find_unresolved_threads (ctx.agent.plot_threads.map Prod.snd)
        ctx.agent.chapter_summaries,
    next_chapter_num := ctx.next_chapter_num }

/-- `ReviewStep` (side-effect free). -/
def review_step : WorkflowStep :=
  { name := "review",
    execute := fun ctx => .ok { ctx with review_result := some (review_result_of ctx) } }

/-- `PreWritingCheckStep`: reads `review_result` (a `KeyError` if missing)
and stores the constant passing report. -/
def pre_check_step : WorkflowStep :=
  { name := "pre_check",
    execute := fun ctx =>
      match ctx.review_result with
      | none => .error "KeyError: review_result"
      | some _ => .ok { ctx with check_result := some default_check_result } }

/-- One line of the recent-chapters block of the prompt:
`f"- 第{chapter.chapter_num}章: {chapter.content_summary}\n"`. -/
def chapter_line (c : ChapterSummary) : String :=
  "- 第" ++ toString c.chapter_num ++ "章: " ++ c.content_summary ++ "\n"

/-- One line of the character block: `f"- {char_name}: {char_info.description}\n"`. -/
def character_line (nc : String × CharacterInfo) : String :=
  "- " ++ nc.1 ++ ": " ++ nc.2.description ++ "\n"

/-- One line of the unresolved-threads block:
`f"- {thread.description} (优先级: {thread.priority})\n"`. -/
def thread_line (th : PlotThread) : String :=
  "- " ++ th.description ++ " (优先级: " ++ th.priority ++ ")\n"

/-- Opening of the prompt: target chapter and the first 500 characters of
the outline. -/
def prompt_intro (r : ReviewResult) : String :=
  "\n基于以下信息创作第" ++ toString r.next_chapter_num
    ++ "章：\n\n## 故事背景\n" ++ r.outline.take 500 ++ "...\n\n## 最近章节情况\n"

/-- Closing block of the prompt (verbatim, including the trailing indent of
the Python triple-quoted string). -/
def prompt_tail : String :=
  "\n## 创作要求\n- 字数要求: 不少于3000字\n- 保持角色一致性\n- 推进主要情节\n- 处理至少一个未解决线索\n        "

/-- `WritingStep.generate_content_prompt` (lines 175-212): the header, then
`review['recent_chapters'][-2:]` (the last two entries of the
most-recent-first list), then every character, then every unresolved thread,
then the fixed closing block, accumulated by string concatenation. -/
def generate_content_prompt (r : ReviewResult) : String :=
  let p1 := (r.recent_chapters.drop (r.recent_chapters.length - 2)).foldl
    (fun acc c => acc ++ chapter_line c) (prompt_intro r)
  let p2 := r.characters.foldl
    (fun acc nc => acc ++ character_line nc) (p1 ++ "\n## 主要角色状态\n")
  let p3 := r.unresolved_threads.foldl
    (fun acc th => acc ++ thread_line th) (p2 ++ "\n## 需要处理的线索\n")
  p3 ++ prompt_tail

/-- `WritingStep.execute` (lines 163-173): use the injected content
generator if any, otherwise build the default prompt (which reads
`review_result` and `check_result` from the context — a `KeyError` if
absent). -/
def writing_execute (gen : Option (Context → String)) (ctx : Context) :
    Except String Context :=
  match gen with
  | some g => .ok { ctx with chapter_content := some (g ctx) }
  | none =>
    match ctx.review_result with
    | none => .error "KeyError: review_result"
    | some r =>
      match ctx.check_result with
      | none => .error "KeyError: check_result"
      | some _ => .ok { ctx with chapter_content := some (generate_content_prompt r) }

/-- `WritingStep` with an optional injected content generator. -/
def writing_step (gen : Option (Context → String)) : WorkflowStep :=
  { name := "writing", execute := writing_execute gen }

/-- `FinalizeStep.create_chapter_summary` (lines 245-261): first 200
characters plus an ellipsis when the content is longer than 200 characters,
full content otherwise; `word_count` is the content length; the extraction
fields stay empty. -/
def create_chapter_summary (r : ReviewResult) (chapter_title chapter_content : Option String) :
    ChapterSummary :=
  let content := chapter_content.getD ""
  { chapter_num := r.next_chapter_num,
    title := chapter_title.getD "",
    content_summary :=
      if content.length > 200 then content.take 200 ++ "..." else content,
    characters_involved := [], plot_threads := [], key_events := [],
    word_count := (content.length : Int), created_time := "" }

/-- `NovelWritingAgent.save_chapter` path (lines 415-435): the default
naming pattern `第{num}章 {title}.txt` inside the volume directory
`第{(num-1)//20 + 1}卷` (Python floor division). -/
def save_chapter_path (chapter_num : Int) (title : String) : String :=
  "第" ++ toString ((chapter_num - 1).fdiv 20 + 1) ++ "卷/第"
    ++ toString chapter_num ++ "章 " ++ title ++ ".txt"

/-- Python `str.replace` (all non-overlapping occurrences, left to right),
fuelled by the input length; only called with a non-empty pattern. -/
def replaceAllAux : Nat → List Char → List Char → List Char → List Char
  | 0, _, _, l => l
  | fuel + 1, pat, rep, l =>
    if pat.isPrefixOf l then
      rep ++ replaceAllAux fuel pat rep (l.drop pat.length)
    else
      match l with
      | [] => []
      | c :: t => c :: replaceAllAux fuel pat rep t

/-- Python `content.replace(pat, rep)`. -/
def replaceAll (pat rep l : List Char) : List Char :=
  replaceAllAux (l.length + 1) pat rep l

/-- Python `pat in content` (substring test). -/
def containsSub (pat l : List Char) : Bool :=
  (dropUntilSub pat l).isSome

/-- The log entry `update_plot_log` builds (lines 450-456). -/
def log_entry (s : ChapterSummary) : String :=
  "\n### **第" ++ toString s.chapter_num ++ "章：" ++ s.title
    ++ "**\n\n* **剧情进展:** " ++ s.content_summary
    ++ "\n* **角色状态:** \n* **关键线索:** \n"

/-- `NovelWritingAgent.update_plot_log` on the document text (lines
458-469): when the plain heading `## 剧情日志` occurs, every occurrence is
replaced by itself followed by the new entry (`str.replace` replaces all);
otherwise a fresh plain heading plus the entry is appended at the end.  The
bold heading variant `## **剧情日志**` does not contain the plain heading as
a substring, so it takes the append-at-end branch. -/
def update_plot_log_content (content : String) (s : ChapterSummary) : String :=
  if containsSub "## 剧情日志".data content.data then
    String.mk (replaceAll "## 剧情日志".data ("## 剧情日志" ++ log_entry s).data content.data)
  else
    content ++ "\n\n## 剧情日志" ++ log_entry s

/-- `update_plot_log` at the agent level: a missing narrative-log file means
nothing is written. -/
def update_plot_log (st : AgentState) (s : ChapterSummary) : AgentState :=
  match st.agent_md with
  | none => st
  | some content => { st with agent_md := some (update_plot_log_content content s) }

/-- `FinalizeStep.execute` (lines 220-243): default the title to
`第{num}章`, write the chapter file, build the summary, upsert it into the
store, and append the log entry. -/
def finalize_execute (ctx : Context) : Except String Context :=
  match ctx.review_result with
  | none => .error "KeyError: review_result"
  | some r =>
    let chapter_num := r.next_chapter_num
    let content := ctx.chapter_content.getD ""
    let title := ctx.chapter_title.getD ("第" ++ toString chapter_num ++ "章")
    let path := save_chapter_path chapter_num title
    let st1 := { ctx.agent with
      files_written := ctx.agent.files_written ++ [(path, content)] }
    let summary := create_chapter_summary r (some title) ctx.chapter_content
    let st2 := { st1 with
      chapter_summaries := add_chapter_summary st1.chapter_summaries summary }
    let st3 := update_plot_log st2 summary
    let ctxres : Context :=
      { ctx with
        agent := st3
        chapter_title := some title
        saved_path := some path
        chapter_summary := some summary }
    Except.ok ctxres

/-- `FinalizeStep`. -/
def finalize_step : WorkflowStep :=
  { name := "finalize", execute := finalize_execute }

/-- The engine loop of `create_next_chapter` (lines 484-490): run the stages
in order; at the first failing stage, log its name with the error and
re-raise — modelled by an error value carrying the stage name, the message,
and the context at the failure point. -/
def run_workflow : List WorkflowStep → Context → Except (String × String × Context) Context
  | [], ctx => .ok ctx
  | step :: rest, ctx =>
    match step.execute ctx with
    | .ok ctx' => run_workflow rest ctx'
    | .error e => .error (step.name, e, ctx)

/-- `create_default_workflow` (lines 324-331). -/
def default_workflow : List WorkflowStep :=
  [review_step, pre_check_step, writing_step none, finalize_step]

/-- The context `create_next_chapter` builds before running the workflow
(lines 474-479): the target chapter is one past the latest stored one. -/
def init_context (st : AgentState) : Context :=
  { agent := st, next_chapter_num := get_latest_chapter_number st.chapter_summaries + 1 }

/-- `NovelWritingAgent.create_next_chapter` (lines 471-493). -/
def create_next_chapter (st : AgentState) (custom : Option (List WorkflowStep)) :
    Except (String × String × Context) Context :=
  run_workflow (custom.getD default_workflow) (init_context st)

/-! ## Specification-side definitions and demo inputs for the workflow
claims -/

/-- Concatenation of a list of strings (specification-side assembly). -/
def concatAll : List String → String
  | [] => ""
  | s :: rest => s ++ concatAll rest

/-- Specification-side rendering of the default Write-stage prompt (amended
reading): header with the first 500 outline characters, the lines of the
LAST TWO ENTRIES of the most-recent-first chapter list — i.e. the second-
and third-most-recent chapters when three or more are stored — then one line
per character, one line per stale thread with its priority, then the fixed
closing block. -/
def spec_content_prompt (r : ReviewResult) : String :=
  prompt_intro r
    ++ concatAll ((r.recent_chapters.drop (r.recent_chapters.length - 2)).map chapter_line)
    ++ "\n## 主要角色状态\n"
    ++ concatAll (r.characters.map character_line)
    ++ "\n## 需要处理的线索\n"
    ++ concatAll (r.unresolved_threads.map thread_line)
    ++ prompt_tail

/-- Modelled from the claim (C6 as stated): the same prompt but built from
"the two most recent chapter summaries", i.e. the first two entries of the
most-recent-first list. -/
def claimed_content_prompt (r : ReviewResult) : String :=
  prompt_intro r
    ++ concatAll ((r.recent_chapters.take 2).map chapter_line)
    ++ "\n## 主要角色状态\n"
    ++ concatAll (r.characters.map character_line)
    ++ "\n## 需要处理的线索\n"
    ++ concatAll (r.unresolved_threads.map thread_line)
    ++ prompt_tail

/-- An agent state for a fresh project: nothing stored yet. -/
def demoAgentEmpty : AgentState :=
  { characters := [], plot_threads := [], chapter_summaries := [],
    outline := "", agent_md := none, files_written := [] }

/-- Recent chapters 1-3 with distinct summaries. -/
def demoRecent1 : ChapterSummary :=
  { chapter_num := 1, title := "一", content_summary := "第一章内容" }

/-- Second demo chapter. -/
def demoRecent2 : ChapterSummary :=
  { chapter_num := 2, title := "二", content_summary := "第二章内容" }

/-- Third demo chapter. -/
def demoRecent3 : ChapterSummary :=
  { chapter_num := 3, title := "三", content_summary := "第三章内容" }

/-- A Review output holding three recent chapters (most recent first). -/
def demoReview3 : ReviewResult :=
  { outline := "修仙大纲", recent_chapters := [demoRecent3, demoRecent2, demoRecent1],
    characters := [], active_threads := [], unresolved_threads := [],
    next_chapter_num := 4 }

/-- A context as the Write stage sees it after Review and PreCheck. -/
def demoWritingCtx : Context :=
  { agent := demoAgentEmpty, next_chapter_num := 4,
    review_result := some demoReview3, check_result := some default_check_result }

/-- A 250-character content string for the Finalize scenario. -/
def demoContent250 : String := String.mk (List.replicate 250 '字')

/-- A Review output for an empty project, used by concrete witnesses. -/
def demoReviewEmpty : ReviewResult :=
  { outline := "", recent_chapters := [], characters := [],
    active_threads := [], unresolved_threads := [], next_chapter_num := 1 }

/-- A PreCheck stage that raises (its `execute` fails). -/
def failing_pre_check : WorkflowStep :=
  { name := "pre_check", execute := fun _ => Except.error "模拟检查失败" }

/-- An agent state with stored data, used for the abort scenario. -/
def demoAgent8 : AgentState :=
  { characters := [("林凡", { name := "林凡", description := "主角" })],
    plot_threads := [], chapter_summaries := demoStore,
    outline := "修仙世界大纲", agent_md := some "## 剧情日志\n", files_written := [] }

/-- The context right after the Review stage in the abort scenario. -/
def demoReviewedCtx : Context :=
  { init_context demoAgent8 with
    review_result := some (review_result_of (init_context demoAgent8)) }

/-- A narrative-log document using the emphasized/bold log heading. -/
def demoBoldDoc : String :=
  "# 设定\n\n## **剧情日志**\n\n### **第1章:旧章**\n\n* **剧情进展:** 旧内容\n"

/-- The same document with the plain log heading. -/
def demoPlainDoc : String :=
  "# 设定\n\n## 剧情日志\n\n### **第1章:旧章**\n\n* **剧情进展:** 旧内容\n"

/-- A document with no log heading at all. -/
def demoNoLogDoc : String := "# 设定\n\n一些前言\n"

/-- The chapter summary Finalize appends in the C9 scenarios. -/
def demoNewSummary : ChapterSummary :=
  { chapter_num := 2, title := "新章", content_summary := "新内容" }

/-! # Theorems -/

/-! ## Claim C1: helper lemmas about `add_chapter_summary` -/

theorem filter_ne_of_filter_ne (l : List ChapterSummary) (s : ChapterSummary) :
    (l.filter fun t => t.chapter_num != s.chapter_num).filter
        (fun t => t.chapter_num != s.chapter_num)
      = l.filter fun t => t.chapter_num != s.chapter_num := by
  apply List.filter_eq_self.mpr
  intro a ha
  exact (List.mem_filter.mp ha).2

theorem add_chapter_summary_perm (l : List ChapterSummary) (s : ChapterSummary) :
    (add_chapter_summary l s).Perm
      ((l.filter fun t => t.chapter_num != s.chapter_num) ++ [s]) :=
  List.perm_insertionSort _ _

theorem add_chapter_summary_sorted (l : List ChapterSummary) (s : ChapterSummary) :
    List.Sorted sumLe (add_chapter_summary l s) :=
  List.sorted_insertionSort _ _

theorem add_chapter_summary_pairwise_ne (l : List ChapterSummary) (s : ChapterSummary)
    (h : List.Pairwise sumLt l) :
    List.Pairwise (fun a b : ChapterSummary => a.chapter_num ≠ b.chapter_num)
      (add_chapter_summary l s) := by
  have hsym : ∀ {x y : ChapterSummary},
      x.chapter_num ≠ y.chapter_num → y.chapter_num ≠ x.chapter_num := fun h => h.symm
  refine ((add_chapter_summary_perm l s).pairwise_iff hsym).mpr ?_
  rw [List.pairwise_append]
  refine ⟨?_, List.pairwise_singleton _ _, ?_⟩
  · exact (h.filter _).imp fun hlt => Int.ne_of_lt hlt
  · intro a ha b hb
    rw [List.mem_singleton] at hb
    subst hb
    have := (List.mem_filter.mp ha).2
    simpa using this

theorem add_chapter_summary_pairwise_lt (l : List ChapterSummary) (s : ChapterSummary)
    (h : List.Pairwise sumLt l) :
    List.Pairwise sumLt (add_chapter_summary l s) := by
  have hle := add_chapter_summary_sorted l s
  have hne := add_chapter_summary_pairwise_ne l s h
  exact (List.Pairwise.and hle hne).imp fun hab =>
    Int.lt_iff_le_and_ne.mpr ⟨hab.1, hab.2⟩

theorem add_chapter_summary_filter_eq (l : List ChapterSummary) (s : ChapterSummary) :
    (add_chapter_summary l s).filter (fun t => t.chapter_num == s.chapter_num) = [s] := by
  apply List.perm_singleton.mp
  have hperm := (add_chapter_summary_perm l s).filter
    (fun t => t.chapter_num == s.chapter_num)
  rw [List.filter_append] at hperm
  have h1 : (l.filter fun t => t.chapter_num != s.chapter_num).filter
      (fun t => t.chapter_num == s.chapter_num) = [] := by
    apply List.filter_eq_nil_iff.mpr
    intro a ha
    have := (List.mem_filter.mp ha).2
    simpa using this
  have h2 : List.filter (fun t => t.chapter_num == s.chapter_num) [s] = [s] := by
    simp
  rw [h1, h2] at hperm
  simpa using hperm

theorem add_chapter_summary_filter_ne (l : List ChapterSummary) (s : ChapterSummary)
    (h : List.Pairwise sumLt l) :
    (add_chapter_summary l s).filter (fun t => t.chapter_num != s.chapter_num)
      = l.filter fun t => t.chapter_num != s.chapter_num := by
  apply List.eq_of_perm_of_sorted (r := sumLt)
  · have hperm := (add_chapter_summary_perm l s).filter
      (fun t => t.chapter_num != s.chapter_num)
    rw [List.filter_append, filter_ne_of_filter_ne] at hperm
    simpa using hperm
  · exact (add_chapter_summary_pairwise_lt l s h).filter _
  · exact h.filter _

/-- C1: `add_chapter_summary` is an upsert keyed by `chapter_num`: on a store
satisfying the invariant (strictly ascending chapter numbers), the result
holds exactly the new summary at its chapter number, is unchanged at every
other chapter number, satisfies the invariant again (so it is sorted
ascending with no duplicate numbers), and re-inserting the same summary is
the identity — hence importing the same log twice yields the same set of
chapter numbers with no duplicates. -/
theorem add_chapter_summary_upsert (l : List ChapterSummary) (s : ChapterSummary)
    (h : List.Pairwise sumLt l) :
    (add_chapter_summary l s).filter (fun t => t.chapter_num == s.chapter_num) = [s]
    ∧ (add_chapter_summary l s).filter (fun t => t.chapter_num != s.chapter_num)
        = l.filter (fun t => t.chapter_num != s.chapter_num)
    ∧ List.Pairwise sumLt (add_chapter_summary l s)
    ∧ add_chapter_summary (add_chapter_summary l s) s = add_chapter_summary l s := by
  refine ⟨add_chapter_summary_filter_eq l s, add_chapter_summary_filter_ne l s h,
    add_chapter_summary_pairwise_lt l s h, ?_⟩
  show List.insertionSort sumLe
      ((add_chapter_summary l s).filter (fun t => t.chapter_num != s.chapter_num) ++ [s])
    = add_chapter_summary l s
  rw [add_chapter_summary_filter_ne l s h]
  rfl

/-- Witness for C1 at a concrete store: replacing the stored chapter 3. -/
theorem add_chapter_summary_upsert_witness :
    (add_chapter_summary demoStore demoSummary).filter
        (fun t => t.chapter_num == demoSummary.chapter_num) = [demoSummary]
    ∧ (add_chapter_summary demoStore demoSummary).filter
        (fun t => t.chapter_num != demoSummary.chapter_num)
        = demoStore.filter (fun t => t.chapter_num != demoSummary.chapter_num)
    ∧ List.Pairwise sumLt (add_chapter_summary demoStore demoSummary)
    ∧ add_chapter_summary (add_chapter_summary demoStore demoSummary) demoSummary
        = add_chapter_summary demoStore demoSummary :=
  add_chapter_summary_upsert demoStore demoSummary (by decide)

/-! ## Claim C4: the staleness query is a stable partition -/

theorem prioGe_of_high {x : PlotThread} (hx : (x.priority == "high") = true) (y : PlotThread) :
    prioGe x y := by
  unfold prioGe
  rw [hx]
  split <;> simp

theorem prioGe_iff_of_not_high {x : PlotThread} (hx : (x.priority == "high") = false)
    (y : PlotThread) : prioGe x y ↔ (y.priority == "high") = false := by
  unfold prioGe
  rw [hx]
  by_cases hy : (y.priority == "high") = true
  · simp [hy]
  · simp [hy]

theorem orderedInsert_cons_of_high {x : PlotThread} (hx : (x.priority == "high") = true) :
    ∀ ys : List PlotThread, List.orderedInsert prioGe x ys = x :: ys := by
  intro ys
  cases ys with
  | nil => rfl
  | cons y t =>
    simp only [List.orderedInsert]
    rw [if_pos (prioGe_of_high hx y)]

theorem orderedInsert_append_of_not {x : PlotThread} :
    ∀ (A B : List PlotThread), (∀ y ∈ A, ¬ prioGe x y) →
      List.orderedInsert prioGe x (A ++ B) = A ++ List.orderedInsert prioGe x B := by
  intro A
  induction A with
  | nil => intro B _; rfl
  | cons a t ih =>
    intro B h
    simp only [List.cons_append, List.orderedInsert]
    rw [if_neg (h a (List.mem_cons_self a t))]
    show a :: List.orderedInsert prioGe x (t ++ B) = _
    rw [ih B fun y hy => h y (List.mem_cons_of_mem a hy)]

/-- `sorted(key=lambda x: x.priority == "high", reverse=True)` — a stable
descending sort on a boolean key — is the stable partition putting the
high-priority elements first with relative order preserved on both sides. -/
theorem insertionSort_prioGe_partition (l : List PlotThread) :
    List.insertionSort prioGe l
      = l.filter (fun t => t.priority == "high")
          ++ l.filter (fun t => !(t.priority == "high")) := by
  induction l with
  | nil => rfl
  | cons x l ih =>
    show List.orderedInsert prioGe x (List.insertionSort prioGe l) = _
    rw [ih]
    by_cases hx : (x.priority == "high") = true
    · rw [orderedInsert_cons_of_high hx]
      simp [List.filter_cons, hx]
    · have hx' : (x.priority == "high") = false := by
        simpa using hx
      have hnot : ∀ y ∈ l.filter (fun t => t.priority == "high"), ¬ prioGe x y := by
        intro y hy
        have hyh := (List.mem_filter.mp hy).2
        rw [prioGe_iff_of_not_high hx']
        simp [hyh]
      rw [orderedInsert_append_of_not _ _ hnot]
      have hins : List.orderedInsert prioGe x
          (List.filter (fun t => !(t.priority == "high")) l)
          = x :: List.filter (fun t => !(t.priority == "high")) l := by
        cases hB : List.filter (fun t => !(t.priority == "high")) l with
        | nil => rfl
        | cons b t =>
          have hbmem : b ∈ List.filter (fun t => !(t.priority == "high")) l := by
            rw [hB]; exact List.mem_cons_self b t
          have hb := (List.mem_filter.mp hbmem).2
          simp only [List.orderedInsert]
          rw [if_pos ((prioGe_iff_of_not_high hx' b).mpr (by simpa using hb))]
      rw [hins]
      simp [List.filter_cons, hx']

/-- C4: `find_unresolved_threads` returns exactly the active threads whose
`last_chapter` trails the current maximum known chapter number by strictly
more than 3, as a stable partition with high-priority threads first; with
maximum 10 an active thread last seen in chapter 5 is returned and one last
seen in chapter 8 is not. -/
theorem find_unresolved_threads_spec :
    (∀ (threads : List PlotThread) (summaries : List ChapterSummary),
      find_unresolved_threads threads summaries
        = (threads.filter fun t => t.status == "active"
              && decide (get_latest_chapter_number summaries - t.last_chapter > 3)).filter
            (fun t => t.priority == "high")
          ++ (threads.filter fun t => t.status == "active"
              && decide (get_latest_chapter_number summaries - t.last_chapter > 3)).filter
            (fun t => !(t.priority == "high")))
    ∧ find_unresolved_threads [demoThread5, demoThread8] demoSummaries10 = [demoThread5]
    ∧ demoThread8 ∉ find_unresolved_threads [demoThread5, demoThread8] demoSummaries10 := by
  refine ⟨fun threads summaries => ?_, by decide, by decide⟩
  unfold find_unresolved_threads
  exact insertionSort_prioGe_partition _

theorem numbered_threads_append (A B : List (Int × String)) :
    ∀ n, numbered_threads n (A ++ B)
      = numbered_threads n A ++ numbered_threads (n + A.length) B := by
  induction A with
  | nil => intro n; simp [numbered_threads]
  | cons p ps ih =>
    intro n
    simp only [List.cons_append, numbered_threads, List.length_cons, List.append_eq]
    rw [ih (n + 1)]
    have harith : n + 1 + ps.length = n + (ps.length + 1) := by omega
    rw [harith]

theorem extract_events_loop_eq (c : Int) (es : List String) :
    ∀ n, extract_events_loop c es n
      = (numbered_threads n ((es.filter fun e => e.length > 10).map fun e => (c, e)),
         n + (es.filter fun e => e.length > 10).length) := by
  induction es with
  | nil => intro n; simp [extract_events_loop, numbered_threads]
  | cons e es ih =>
    intro n
    by_cases he : e.length > 10
    · simp only [extract_events_loop, if_pos he, ih (n + 1), List.filter_cons,
        decide_eq_true he]
      simp [numbered_threads, Nat.add_right_comm, Nat.add_comm, Nat.add_assoc]
    · simp only [extract_events_loop, if_neg he, ih n, List.filter_cons]
      simp [he]

theorem extract_threads_loop_eq (summaries : List ChapterSummary) :
    ∀ n, extract_threads_loop summaries n
      = numbered_threads n (qualifying_events summaries) := by
  induction summaries with
  | nil => intro n; simp [extract_threads_loop, qualifying_events, numbered_threads]
  | cons s rest ih =>
    intro n
    simp only [extract_threads_loop, extract_events_loop_eq, qualifying_events,
      List.flatMap_cons]
    rw [numbered_threads_append]
    rw [List.length_map]
    rw [ih]
    rfl

/-- C3: the Thread Synthesizer emits exactly one thread per key-event string
longer than 10 characters, walking the summaries in sequence order (chapter
order for a sorted store) and events in order within each summary, with
sequential ids `thread_1, thread_2, ...` starting at 1, description equal to
the event text, status `active`, priority `medium`, and
`first_chapter = last_chapter =` the source chapter number; events of length
at most 10 produce nothing, and no deduplication across chapters occurs
(every qualifying event yields its own thread). -/
theorem extract_plot_threads_spec (summaries : List ChapterSummary) :
    extract_plot_threads summaries = numbered_threads 1 (qualifying_events summaries) :=
  extract_threads_loop_eq summaries 1

/-- C2 (code bug witness): on a well-formed document with exactly one
chapter heading, the line-scanning segmenter of `simple_migrate.py` finds
exactly that chapter (number 1, title `起点`, body up to end of document),
but `gemini_adapter_fixed.py`'s segmenter — whose heading regex is
double-escaped and so demands literal backslash characters — finds no
chapter heading at all, hence produces zero chapter blocks instead of the
one block the claim requires. -/
theorem fixed_segmenter_finds_no_chapters :
    simple_migrate_chapters demoLogDoc
      = [((1 : Int), "起点".data, "\n* **剧情进展:** 主角获得神秘系统\n".data)]
    ∧ fixed_find_chapter_headings demoLogDoc = [] :=
  ⟨by decide, by decide⟩

/-- C7: a failed single-chapter parse drops exactly that chapter and
extraction continues with all remaining chapters (stated for every
per-chapter parser, every failing chapter and arbitrary surrounding
chapters); and an absent labelled field never aborts a chapter — a block
with a plot-progress field but no character-status field parses to a summary
with non-empty `content_summary` and empty `characters_involved`. -/
theorem chapter_parse_error_containment :
    (∀ {α : Type} (parse : α → Option ChapterSummary) (pre : List α) (c : α) (post : List α),
      parse c = none →
      collect_summaries parse (pre ++ c :: post)
        = collect_summaries parse pre ++ collect_summaries parse post)
    ∧ parse_single_chapter_summary 1 "起点" demoChapterBlock
        = some { chapter_num := 1, title := "起点",
                 content_summary := "主角获得神秘系统，开始修炼之路",
                 characters_involved := [], plot_threads := [],
                 key_events := ["神秘系统的来历之谜尚未揭开"],
                 word_count := 0, created_time := "" }
    ∧ ("主角获得神秘系统，开始修炼之路" : String) ≠ "" := by
  refine ⟨?_, by decide, by decide⟩
  intro α parse pre c post hc
  induction pre with
  | nil => simp [collect_summaries, hc]
  | cons a t ih =>
    simp only [List.cons_append, collect_summaries, List.append_eq]
    rw [ih]
    cases parse a <;> simp

/-- Witness for C7's general part: dropping the failing middle chapter. -/
theorem chapter_parse_error_containment_witness :
    collect_summaries demoFlakyParse ([1] ++ 0 :: [2])
      = collect_summaries demoFlakyParse [1] ++ collect_summaries demoFlakyParse [2] :=
  chapter_parse_error_containment.1 demoFlakyParse [1] 0 [2] (by decide)

/-! ## Claim C5: the Finalize summary -/

/-- C5: the summary Finalize builds from content `c` has `content_summary`
equal to the first 200 characters of `c` followed by the ellipsis marker
when `c` is longer than 200 characters and equal to `c` otherwise, has
`word_count` equal to the length of `c`, and leaves the extraction fields
empty; in particular 250-character content yields the truncated summary and
`word_count = 250`. -/
theorem create_chapter_summary_spec :
    (∀ (r : ReviewResult) (ot : Option String) (content : String),
      (content.length > 200 →
        (create_chapter_summary r ot (some content)).content_summary
          = content.take 200 ++ "...")
      ∧ (content.length ≤ 200 →
        (create_chapter_summary r ot (some content)).content_summary = content)
      ∧ (create_chapter_summary r ot (some content)).word_count = (content.length : Int)
      ∧ (create_chapter_summary r ot (some content)).characters_involved = []
      ∧ (create_chapter_summary r ot (some content)).plot_threads = []
      ∧ (create_chapter_summary r ot (some content)).key_events = []
      ∧ (create_chapter_summary r ot (some content)).chapter_num = r.next_chapter_num)
    ∧ (∀ (r : ReviewResult) (ot : Option String) (content : String),
      content.length = 250 →
        (create_chapter_summary r ot (some content)).content_summary
          = content.take 200 ++ "..."
        ∧ (create_chapter_summary r ot (some content)).word_count = 250) := by
  constructor
  · intro r ot content
    refine ⟨fun h => ?_, fun h => ?_, rfl, rfl, rfl, rfl, rfl⟩
    · simp [create_chapter_summary, h]
    · have h' : ¬ content.length > 200 := by omega
      simp [create_chapter_summary, h']
  · intro r ot content h
    have h' : content.length > 200 := by omega
    refine ⟨by simp [create_chapter_summary, h'], ?_⟩
    show ((content.length : Int)) = 250
    rw [h]
    rfl

/-- Witness for C5 at 250-character content. -/
theorem create_chapter_summary_spec_witness :
    (create_chapter_summary demoReviewEmpty (some "第1章") (some demoContent250)).content_summary
      = demoContent250.take 200 ++ "..."
    ∧ (create_chapter_summary demoReviewEmpty (some "第1章") (some demoContent250)).word_count
      = 250 :=
  create_chapter_summary_spec.2 demoReviewEmpty (some "第1章") demoContent250 (by decide)

/-! ## Claim C6: the default Write-stage prompt -/

theorem foldl_append_concatAll {α : Type} (f : α → String) :
    ∀ (l : List α) (b : String),
      l.foldl (fun acc x => acc ++ f x) b = b ++ concatAll (l.map f) := by
  intro l
  induction l with
  | nil => intro b; simp [concatAll, String.append_empty]
  | cons x t ih =>
    intro b
    show t.foldl (fun acc x => acc ++ f x) (b ++ f x) = b ++ concatAll (f x :: t.map f)
    rw [ih (b ++ f x)]
    show b ++ f x ++ concatAll (t.map f) = b ++ (f x ++ concatAll (t.map f))
    rw [String.append_assoc]

/-- C6 counterexample: with three stored chapters the actual prompt (built
from `recent_chapters[-2:]`, the second- and third-most-recent chapters)
differs from the prompt the claim describes (built from the two most recent
chapters). -/
theorem append_sandwich_ne (X Y A B : String) (h : A ≠ B) :
    X ++ (A ++ Y) ≠ X ++ (B ++ Y) := by
  intro hEq
  apply h
  apply String.ext
  have hd := congrArg String.data hEq
  simp only [String.data_append] at hd
  exact List.append_cancel_right (List.append_cancel_left hd)

theorem writing_prompt_counterexample :
    generate_content_prompt demoReview3 ≠ claimed_content_prompt demoReview3 := by
  have hg : generate_content_prompt demoReview3
      = prompt_intro demoReview3
        ++ (concatAll ((demoReview3.recent_chapters.drop
              (demoReview3.recent_chapters.length - 2)).map chapter_line)
          ++ ("\n## 主要角色状态\n"
            ++ (concatAll (demoReview3.characters.map character_line)
              ++ ("\n## 需要处理的线索\n"
                ++ (concatAll (demoReview3.unresolved_threads.map thread_line)
                  ++ prompt_tail))))) := by
    simp only [generate_content_prompt, foldl_append_concatAll, String.append_assoc]
  have hc : claimed_content_prompt demoReview3
      = prompt_intro demoReview3
        ++ (concatAll ((demoReview3.recent_chapters.take 2).map chapter_line)
          ++ ("\n## 主要角色状态\n"
            ++ (concatAll (demoReview3.characters.map character_line)
              ++ ("\n## 需要处理的线索\n"
                ++ (concatAll (demoReview3.unresolved_threads.map thread_line)
                  ++ prompt_tail))))) := by
    simp only [claimed_content_prompt, String.append_assoc]
  rw [hg, hc]
  exact append_sandwich_ne _ _ _ _ (by decide)

/-- C6 (amended): without an injected generator the Write stage outputs
exactly the templated prompt and calls nothing external; the prompt is
assembled from the first 500 outline characters, the LAST two entries of the
most-recent-first recent-chapter list (the second- and third-most-recent
chapters when three or more exist — not the two most recent), every known
character's description, and every stale thread with its priority
annotation. -/
theorem writing_stage_prompt_spec :
    (∀ (ctx : Context) (r : ReviewResult) (c : CheckResult),
      ctx.review_result = some r → ctx.check_result = some c →
      writing_execute none ctx
        = Except.ok { ctx with chapter_content := some (generate_content_prompt r) })
    ∧ ∀ r, generate_content_prompt r = spec_content_prompt r := by
  constructor
  · intro ctx r c hr hc
    simp [writing_execute, hr, hc]
  · intro r
    simp only [generate_content_prompt, spec_content_prompt, foldl_append_concatAll]

/-- Witness for C6's writing-stage conjunct at a concrete context. -/
theorem writing_stage_prompt_spec_witness :
    writing_execute none demoWritingCtx
      = Except.ok { demoWritingCtx with
          chapter_content := some (generate_content_prompt demoReview3) } :=
  writing_stage_prompt_spec.1 demoWritingCtx demoReview3 default_check_result rfl rfl

/-! ## Claim C8: workflow failure semantics -/

/-- C8: when a stage fails, the engine reports exactly that stage's name
with the error and the context reached so far; no later stage runs (the
result is independent of the steps after the failing one).  In the concrete
scenario, PreCheck failing after Review leaves Review's output in the
context, Finalize never runs, the record store is untouched, and no chapter
file has been written. -/
theorem workflow_abort_spec :
    (∀ (pre : List WorkflowStep) (f : WorkflowStep) (post : List WorkflowStep)
        (ctx ctx' : Context) (e : String),
      run_workflow pre ctx = Except.ok ctx' → f.execute ctx' = Except.error e →
      run_workflow (pre ++ f :: post) ctx = Except.error (f.name, e, ctx'))
    ∧ run_workflow [review_step, failing_pre_check, writing_step none, finalize_step]
        (init_context demoAgent8)
        = Except.error ("pre_check", "模拟检查失败", demoReviewedCtx)
    ∧ demoReviewedCtx.review_result = some (review_result_of (init_context demoAgent8))
    ∧ demoReviewedCtx.agent = demoAgent8
    ∧ demoReviewedCtx.agent.files_written = []
    ∧ demoReviewedCtx.agent.chapter_summaries = demoAgent8.chapter_summaries := by
  refine ⟨?_, rfl, rfl, rfl, rfl, rfl⟩
  intro pre
  induction pre with
  | nil =>
    intro f post ctx ctx' e h hf
    have hctx : ctx = ctx' := by
      simpa [run_workflow] using h
    subst hctx
    simp [run_workflow, hf]
  | cons s t ih =>
    intro f post ctx ctx' e h hf
    cases hs : s.execute ctx with
    | error err =>
      rw [run_workflow, hs] at h
      exact absurd h (by simp)
    | ok c2 =>
      rw [run_workflow, hs] at h
      show run_workflow ((s :: t) ++ f :: post) ctx = _
      rw [List.cons_append, run_workflow, hs]
      exact ih f post c2 ctx' e h hf

/-- Witness for C8's general part: the concrete abort run, produced by
applying the abort theorem to the one-stage prefix `[review_step]`. -/
theorem workflow_abort_spec_witness :
    run_workflow ([review_step] ++ failing_pre_check
        :: [writing_step none, finalize_step]) (init_context demoAgent8)
      = Except.error ("pre_check", "模拟检查失败", demoReviewedCtx) :=
  workflow_abort_spec.1 [review_step] failing_pre_check [writing_step none, finalize_step]
    (init_context demoAgent8) demoReviewedCtx "模拟检查失败" rfl rfl

/-! ## Claim C9: appending to the narrative log -/

theorem isPrefixOf_append_self (p l : List Char) : p.isPrefixOf (p ++ l) = true := by
  induction p with
  | nil => simp [List.isPrefixOf]
  | cons c t ih => simp [List.isPrefixOf, ih]

theorem takeWhile_append_stop {p : Char → Bool} :
    ∀ (A : List Char) {c : Char} (B : List Char), (∀ a ∈ A, p a = true) → p c = false →
      (A ++ c :: B).takeWhile p = A := by
  intro A
  induction A with
  | nil => intro c B _ hc; simp [List.takeWhile_cons, hc]
  | cons a t ih =>
    intro c B hA hc
    have ha : p a = true := hA a (List.mem_cons_self a t)
    simp only [List.cons_append, List.takeWhile_cons, ha, if_true]
    rw [ih B (fun x hx => hA x (List.mem_cons_of_mem a hx)) hc]

theorem expectStr_append (pat l : List Char) : expectStr pat (pat ++ l) = some l := by
  unfold expectStr
  rw [if_pos (isPrefixOf_append_self pat l), List.drop_left]

/-- Any generated heading line `### **第<digits>章：<title>**` (non-empty
digit run, title without stars not starting with a separator) is recognized
by the line segmenter's chapter pattern, with the expected chapter number
and title group. -/
theorem matchChapterLine_generated (ds : List Char) (c0 : Char) (t0 : List Char)
    (hds : ds ≠ []) (hdig : ∀ c ∈ ds, c.isDigit = true)
    (hc0sep : chapterSep c0 = false) (hc0star : c0 ≠ '*')
    (ht0star : ∀ c ∈ t0, c ≠ '*') :
    matchChapterLine
        ("### **第".data ++ (ds ++ ('章' :: '：' :: c0 :: (t0 ++ "**".data))))
      = some ((digitsToNat ds : Int), c0 :: t0) := by
  unfold matchChapterLine
  rw [expectStr_append]
  have hds_take : (ds ++ ('章' :: '：' :: c0 :: (t0 ++ "**".data))).takeWhile Char.isDigit = ds :=
    takeWhile_append_stop ds _ hdig (by decide)
  have hds_empty : ds.isEmpty = false := List.isEmpty_eq_false.mpr hds
  simp only [hds_take, hds_empty, Bool.false_eq_true, if_false]
  rw [List.drop_left]
  have hzhang : expectStr "章".data ('章' :: '：' :: c0 :: (t0 ++ "**".data))
      = some ('：' :: c0 :: (t0 ++ "**".data)) := by
    have := expectStr_append "章".data ('：' :: c0 :: (t0 ++ "**".data))
    simpa using this
  rw [hzhang]
  have hshape : '：' :: c0 :: (t0 ++ "**".data)
      = ('：' :: c0 :: t0) ++ ('*' :: ['*']) := by
    simp
  have hp : ('：' :: c0 :: (t0 ++ "**".data)).takeWhile (fun c => c != '*')
      = '：' :: c0 :: t0 := by
    rw [hshape]
    apply takeWhile_append_stop
    · intro a ha
      rcases List.mem_cons.mp ha with h1 | h2
      · subst h1; decide
      · rcases List.mem_cons.mp h2 with h3 | h4
        · subst h3; simpa using hc0star
        · simpa using ht0star a h4
    · decide
  unfold sepGroupNonstar
  simp only [hp]
  have hne : ('：' :: c0 :: t0).isEmpty = false := rfl
  simp only [hne, Bool.false_eq_true, if_false]
  have ha : ('：' :: c0 :: t0).takeWhile chapterSep = ['：'] := by
    have hsep : chapterSep '：' = true := by decide
    simp [List.takeWhile_cons, hsep, hc0sep]
  rw [ha]
  have hlen : ¬ ((['：'] : List Char).length = ('：' :: c0 :: t0).length) := by
    simp
  rw [if_neg hlen]
  have hdrop2 : ('：' :: c0 :: (t0 ++ "**".data)).drop ('：' :: c0 :: t0).length
      = "**".data := by
    rw [hshape]
    have := List.drop_left ('：' :: c0 :: t0) ('*' :: ['*'])
    simp only [this]
  rw [hdrop2]
  rw [if_pos (by decide)]
  simp

/-- C9 counterexample: on a document whose log heading uses the
emphasized/bold variant, `update_plot_log` does NOT insert the new entry
immediately after the heading; it appends the entry at the end of the file
under a freshly added plain heading. -/
theorem update_plot_log_bold_counterexample :
    update_plot_log_content demoBoldDoc demoNewSummary
      = demoBoldDoc ++ "\n\n## 剧情日志" ++ log_entry demoNewSummary
    ∧ update_plot_log_content demoBoldDoc demoNewSummary
      ≠ "# 设定\n\n## **剧情日志**" ++ log_entry demoNewSummary
          ++ "\n\n### **第1章:旧章**\n\n* **剧情进展:** 旧内容\n" :=
  ⟨by decide, by decide⟩

/-- C9 (amended): the appended log entry uses the heading format the line
segmenter recognizes, so the narrative log stays parseable after Finalize;
the entry is inserted immediately after the log-section heading only in its
plain textual variant (every occurrence, via replace-all) — with only the
bold variant, or no heading at all, the entry is appended at the end of the
file under a new plain heading.  Concretely: after appending chapter 2 to a
plain-heading document holding chapter 1, segmentation yields chapter 2
first (most-recent-first) then chapter 1; after appending to a document with
no heading, segmentation yields exactly chapter 2. -/
theorem update_plot_log_amended_spec :
    (∀ (content : String) (s : ChapterSummary),
      containsSub "## 剧情日志".data content.data = false →
      update_plot_log_content content s
        = content ++ "\n\n## 剧情日志" ++ log_entry s)
    ∧ update_plot_log_content demoPlainDoc demoNewSummary
        = "# 设定\n\n## 剧情日志" ++ log_entry demoNewSummary
          ++ "\n\n### **第1章:旧章**\n\n* **剧情进展:** 旧内容\n"
    ∧ simple_migrate_chapters (update_plot_log_content demoPlainDoc demoNewSummary)
        = [((2 : Int), "新章".data,
            "\n* **剧情进展:** 新内容\n* **角色状态:** \n* **关键线索:** \n\n".data),
           ((1 : Int), "旧章".data, "\n* **剧情进展:** 旧内容\n".data)]
    ∧ simple_migrate_chapters (update_plot_log_content demoNoLogDoc demoNewSummary)
        = [((2 : Int), "新章".data,
            "\n* **剧情进展:** 新内容\n* **角色状态:** \n* **关键线索:** \n".data)]
    ∧ (∀ (ds : List Char) (c0 : Char) (t0 : List Char),
        ds ≠ [] → (∀ c ∈ ds, c.isDigit = true) → chapterSep c0 = false → c0 ≠ '*' →
        (∀ c ∈ t0, c ≠ '*') →
        matchChapterLine
            ("### **第".data ++ (ds ++ ('章' :: '：' :: c0 :: (t0 ++ "**".data))))
          = some ((digitsToNat ds : Int), c0 :: t0)) := by
  refine ⟨?_, by decide, by decide, by decide, matchChapterLine_generated⟩
  intro content s h
  simp [update_plot_log_content, h]

/-- Witness for C9's amended theorem: the append-at-end branch on a
heading-less document, and heading recognition for the generated
`### **第2章：新章**` line. -/
theorem update_plot_log_amended_spec_witness :
    update_plot_log_content demoNoLogDoc demoNewSummary
      = demoNoLogDoc ++ "\n\n## 剧情日志" ++ log_entry demoNewSummary
    ∧ matchChapterLine
        ("### **第".data ++ (['2'] ++ ('章' :: '：' :: '新' :: ("章".data ++ "**".data))))
      = some ((digitsToNat ['2'] : Int), '新' :: "章".data) :=
  ⟨update_plot_log_amended_spec.1 demoNoLogDoc demoNewSummary (by decide),
   update_plot_log_amended_spec.2.2.2.2 ['2'] '新' "章".data (by decide) (by decide)
     (by decide) (by decide) (by decide)⟩

/-! ## Claim C10: target chapter numbering -/

theorem foldl_max_init_le (l : List ChapterSummary) :
    ∀ a : Int, a ≤ l.foldl (fun m t => max m t.chapter_num) a := by
  induction l with
  | nil => intro a; exact le_refl a
  | cons x t ih =>
    intro a
    exact le_trans (le_max_left a x.chapter_num) (ih (max a x.chapter_num))

theorem foldl_max_mem_le (l : List ChapterSummary) :
    ∀ (a : Int) (s : ChapterSummary), s ∈ l →
      s.chapter_num ≤ l.foldl (fun m t => max m t.chapter_num) a := by
  induction l with
  | nil => intro a s hs; exact absurd hs (List.not_mem_nil s)
  | cons x t ih =>
    intro a s hs
    rcases List.mem_cons.mp hs with h1 | h2
    · subst h1
      exact le_trans (le_max_right a s.chapter_num) (foldl_max_init_le t _)
    · exact ih (max a x.chapter_num) s h2

theorem foldl_max_cases (l : List ChapterSummary) :
    ∀ a : Int, l.foldl (fun m t => max m t.chapter_num) a = a
      ∨ l.foldl (fun m t => max m t.chapter_num) a ∈ l.map (·.chapter_num) := by
  induction l with
  | nil => intro a; exact Or.inl rfl
  | cons x t ih =>
    intro a
    simp only [List.foldl_cons]
    rcases ih (max a x.chapter_num) with h | h
    · rcases max_choice a x.chapter_num with hm | hm
      · exact Or.inl (h.trans hm)
      · refine Or.inr ?_
        rw [List.map_cons, h, hm]
        exact List.mem_cons_self _ _
    · exact Or.inr (List.mem_cons_of_mem _ h)

/-- C10: on an empty store the latest chapter number is 0 and the recent
list is empty, so `create_next_chapter` targets chapter 1 on a fresh
project; in general the context it builds targets one more than the maximum
stored chapter number (`get_latest_chapter_number` bounds every stored
number and is itself stored when the store is non-empty). -/
theorem next_chapter_numbering_spec :
    (∀ st : AgentState, st.chapter_summaries = [] →
      get_latest_chapter_number st.chapter_summaries = 0
      ∧ (∀ count, get_recent_chapters st.chapter_summaries count = [])
      ∧ (init_context st).next_chapter_num = 1)
    ∧ (∀ (st : AgentState) (custom : Option (List WorkflowStep)),
        create_next_chapter st custom
          = run_workflow (custom.getD default_workflow) (init_context st))
    ∧ (∀ st : AgentState, (init_context st).next_chapter_num
        = get_latest_chapter_number st.chapter_summaries + 1)
    ∧ (∀ l : List ChapterSummary,
        (∀ s ∈ l, s.chapter_num ≤ get_latest_chapter_number l)
        ∧ (l ≠ [] → get_latest_chapter_number l ∈ l.map (·.chapter_num))) := by
  refine ⟨?_, fun st custom => rfl, fun st => rfl, ?_⟩
  · intro st h
    refine ⟨?_, ?_, ?_⟩
    · rw [h]; rfl
    · intro count; rw [h]; rfl
    · show get_latest_chapter_number st.chapter_summaries + 1 = 1
      rw [h]; rfl
  · intro l
    constructor
    · intro s hs
      cases l with
      | nil => exact absurd hs (List.not_mem_nil s)
      | cons x t =>
        rcases List.mem_cons.mp hs with h1 | h2
        · subst h1
          exact foldl_max_init_le t s.chapter_num
        · exact foldl_max_mem_le t x.chapter_num s h2
    · intro hne
      cases l with
      | nil => exact absurd rfl hne
      | cons x t =>
        show t.foldl (fun m u => max m u.chapter_num) x.chapter_num ∈ _
        rcases foldl_max_cases t x.chapter_num with h | h
        · rw [List.map_cons, h]
          exact List.mem_cons_self _ _
        · exact List.mem_cons_of_mem _ h

/-- Witness for C10: a fresh project targets chapter 1, and on the demo
store (chapters 1 and 3) the latest chapter number bounds the store and is
attained. -/
theorem next_chapter_numbering_spec_witness :
    (get_latest_chapter_number demoAgentEmpty.chapter_summaries = 0
      ∧ (∀ count, get_recent_chapters demoAgentEmpty.chapter_summaries count = [])
      ∧ (init_context demoAgentEmpty).next_chapter_num = 1)
    ∧ (get_latest_chapter_number demoStore ∈ demoStore.map (·.chapter_num)) :=
  ⟨next_chapter_numbering_spec.1 demoAgentEmpty rfl,
   (next_chapter_numbering_spec.2.2.2 demoStore).2 (by decide)⟩
